import Mathlib

/-!
Verification of `scripts/sync_openrouter_analytics.py`.

The script is a linear fetch → aggregate → send pipeline.  We embed it
shallowly:

* JSON activity records become the structure `ActivityRecord`; fields read
  with `item.get(k, default)` in Python become `Option` fields (with `none`
  meaning "key absent"), fields read with `item[k]` become required fields.
* Python floats (the `usage` cost figures) are modelled as exact rationals
  `ℚ`; the spec explicitly grants floating-point tolerance for the sums.
* Network calls are abstracted as explicit function parameters
  (`get`, `post`) returning `Except PyError`, so exceptions raised by
  `requests` or by the explicit `raise` statements become `.error` values.
* `datetime` values (day resolution only is used) are modelled as the
  integer rata-die day number (days since 1970-01-01); `strptime`/`strftime`
  convert via the standard civil-calendar ↔ day-number algorithm, and
  `current += timedelta(days=1)` becomes `+ 1`.
-/

/-- Exceptions that the script can raise or observe: `ValueError` from
`strptime`, `IndexError` from `dates[0]` on an empty list, `KeyError` from a
missing required JSON field, `requests.RequestException` from the transport,
and the generic `Exception` raised on an API-level error payload. -/
inductive PyError where
  | valueError
  | indexError
  | keyError
  | requestException
  | apiError
deriving DecidableEq

/-- One OpenRouter activity record (one JSON object of the response `data`
array).  Fields accessed with `item[...]` in the script are required here;
fields accessed with `item.get(...)` are `Option`s, `none` meaning the key is
absent. -/
structure ActivityRecord where
  model_permaslug : Option String
  model : Option String
  usage : ℚ
  requests : Nat
  prompt_tokens : Nat
  completion_tokens : Nat
  reasoning_tokens : Option Nat
  byok_usage_inference : Option ℚ
  provider_name : String
deriving DecidableEq

/-- The per-model dict built inside the `for item in raw_data` loop of
`transform_activity_data`. -/
structure ModelBreakdown where
  name : String
  cost : ℚ
  requests : Nat
  prompt_tokens : Nat
  completion_tokens : Nat
  reasoning_tokens : Nat
  byok_usage : ℚ
  provider : String
deriving DecidableEq

/-- The dict returned by `transform_activity_data` (the PostHog event
properties). -/
structure DailySummary where
  date : String
  total_cost : ℚ
  total_requests : Nat
  total_prompt_tokens : Nat
  total_completion_tokens : Nat
  total_reasoning_tokens : Nat
  model_count : Nat
  models : List ModelBreakdown
deriving DecidableEq

/-- The body of the `for item in raw_data` loop: the `model` dict literal of
`transform_activity_data`.  `item.get("model_permaslug", item.get("model", ""))`
becomes nested `Option.getD`. -/
def projectRecord (item : ActivityRecord) : ModelBreakdown :=
  { name := item.model_permaslug.getD (item.model.getD "")
    cost := item.usage
    requests := item.requests
    prompt_tokens := item.prompt_tokens
    completion_tokens := item.completion_tokens
    reasoning_tokens := item.reasoning_tokens.getD 0
    byok_usage := item.byok_usage_inference.getD 0
    provider := item.provider_name }

/-- The ordering used by `models.sort(key=lambda x: x["cost"], reverse=True)`:
`a` may come before `b` when `a`'s cost is at least `b`'s. -/
def byCostDesc (a b : ModelBreakdown) : Prop := b.cost ≤ a.cost

instance : DecidableRel byCostDesc :=
  fun a b => inferInstanceAs (Decidable (b.cost ≤ a.cost))

instance : IsTotal ModelBreakdown byCostDesc :=
  ⟨fun a b => le_total b.cost a.cost⟩

instance : IsTrans ModelBreakdown byCostDesc :=
  ⟨fun _ _ _ hab hbc => le_trans hbc hab⟩

/-- Python's `list.sort` is a stable sort; with `reverse=True` it orders by
descending key while equal-key elements keep their original relative order.
We model it by the (stable) insertion sort with the descending-cost
relation. -/
def sortModels (l : List ModelBreakdown) : List ModelBreakdown :=
  List.insertionSort byCostDesc l

/-- `transform_activity_data(raw_data, date)`: the early return on
`if not raw_data` followed by the sums, the projection loop and the sort. -/
def transform_activity_data (raw_data : List ActivityRecord) (date : String) :
    DailySummary :=
  if raw_data.isEmpty then
    { date := date
      total_cost := 0
      total_requests := 0
      total_prompt_tokens := 0
      total_completion_tokens := 0
      total_reasoning_tokens := 0
      model_count := 0
      models := [] }
  else
    let models := sortModels (raw_data.map projectRecord)
    { date := date
      total_cost := (raw_data.map (fun item => item.usage)).sum
      total_requests := (raw_data.map (fun item => item.requests)).sum
      total_prompt_tokens := (raw_data.map (fun item => item.prompt_tokens)).sum
      total_completion_tokens :=
        (raw_data.map (fun item => item.completion_tokens)).sum
      total_reasoning_tokens :=
        (raw_data.map (fun item => item.reasoning_tokens.getD 0)).sum
      model_count := models.length
      models := models }

/-- The JSON body posted to PostHog by `send_to_posthog`. -/
structure PosthogPayload where
  api_key : String
  event : String
  distinct_id : String
  properties : DailySummary
  timestamp : String
deriving DecidableEq

/-- The `payload` dict literal of `send_to_posthog`, including the timestamp
`f"{date}T23:30:00Z"`.  It depends only on its arguments — the script never
consults the clock here. -/
def posthogPayload (api_key : String) (event_data : DailySummary)
    (date : String) : PosthogPayload :=
  { api_key := api_key
    event := "openrouter_daily_activity"
    distinct_id := "enchanted_github_actions"
    properties := event_data
    timestamp := date ++ "T23:30:00Z" }

/-- The decoded JSON response of the PostHog endpoint: `result.get("status")`
is `status`, `none` when the key is absent. -/
structure PosthogResponse where
  status : Option String
deriving DecidableEq

/-- `send_to_posthog(api_key, host, event_data, date)`.  The transport
(`requests.post` + `raise_for_status` + `.json()`) is abstracted as `post`;
the explicit `raise Exception(...)` on `result.get("status") != "Ok"` becomes
`.error .apiError`. -/
def send_to_posthog (post : PosthogPayload → Except PyError PosthogResponse)
    (api_key : String) (event_data : DailySummary) (date : String) :
    Except PyError Unit :=
  match post (posthogPayload api_key event_data date) with
  | .error e => .error e
  | .ok result =>
      if result.status = some "Ok" then .ok () else .error .apiError

/-- The decoded JSON response of the OpenRouter activity endpoint: an
optional top-level `"error"` field and the `"data"` array (`data.get("data",
[])` defaults to the empty list, which we fold into the field itself). -/
structure OpenRouterResponse where
  error : Option String
  data : List ActivityRecord

/-- `fetch_openrouter_activity(api_key, date)`.  The transport
(`requests.get` + `raise_for_status` + `.json()`) is abstracted as `get`;
`raise Exception(...)` when the body has an `"error"` field becomes
`.error .apiError`. -/
def fetch_openrouter_activity
    (get : String → Except PyError OpenRouterResponse) (date : String) :
    Except PyError (List ActivityRecord) :=
  match get date with
  | .error e => .error e
  | .ok resp =>
      match resp.error with
      | some _ => .error .apiError
      | none => .ok resp.data

/-- `sync_date(openrouter_key, posthog_key, posthog_host, date)`: fetch,
aggregate, send.  Any exception propagates to the caller (the function
re-raises after logging). -/
def sync_date (get : String → Except PyError OpenRouterResponse)
    (post : PosthogPayload → Except PyError PosthogResponse)
    (posthog_key : String) (date : String) : Except PyError Unit :=
  match fetch_openrouter_activity get date with
  | .error e => .error e
  | .ok raw_data =>
      let event_data := transform_activity_data raw_data date
      send_to_posthog post posthog_key event_data date

/-- Whether an `Except` result is a success. -/
def exceptOk : Except PyError Unit → Bool
  | .ok _ => true
  | .error _ => false

/-- One iteration of `main`'s `for date in dates` loop: on success the
counter advances, on any exception the date is skipped (`continue`).  The
Boolean paired with the date models the per-date success/failure console
line. -/
def sync_step (get : String → Except PyError OpenRouterResponse)
    (post : PosthogPayload → Except PyError PosthogResponse)
    (posthog_key : String) (acc : Nat × List (String × Bool)) (date : String) :
    Nat × List (String × Bool) :=
  match sync_date get post posthog_key date with
  | .ok _ => (acc.1 + 1, acc.2 ++ [(date, true)])
  | .error _ => (acc.1, acc.2 ++ [(date, false)])

/-- The driver loop of `main`: starts with `success_count = 0`, runs
`sync_date` for every planned date, and returns the final count together
with the attempt log. -/
def run_sync (get : String → Except PyError OpenRouterResponse)
    (post : PosthogPayload → Except PyError PosthogResponse)
    (posthog_key : String) (dates : List String) :
    Nat × List (String × Bool) :=
  dates.foldl (sync_step get post posthog_key) (0, [])

/-!
Calendar model.  `datetime.strptime(s, "%Y-%m-%d")` and
`date.strftime("%Y-%m-%d")` are modelled via the standard bijection between
civil dates and day numbers (days since 1970-01-01); a `datetime` at day
resolution is just its day number, `timedelta(days=1)` is `+ 1`, and
`<=` on datetimes is `≤` on day numbers.  All intermediate division operands
below are nonnegative for the years `datetime` accepts (1 ≤ year ≤ 9999),
so the division convention is immaterial.
-/

/-- Gregorian leap-year rule. -/
def isLeap (y : Int) : Bool :=
  y % 4 = 0 && (y % 100 != 0 || y % 400 = 0)

/-- Number of days in month `m` of year `y`. -/
def daysInMonth (y m : Int) : Int :=
  if m = 2 then (if isLeap y then 29 else 28)
  else if m = 4 || m = 6 || m = 9 || m = 11 then 30
  else 31

/-- Day number (days since 1970-01-01) of the civil date `(y, m, d)`. -/
def daysFromCivil (y m d : Int) : Int :=
  let y' := if m ≤ 2 then y - 1 else y
  let era := y' / 400
  let yoe := y' - era * 400
  let mp := if m > 2 then m - 3 else m + 9
  let doy := (153 * mp + 2) / 5 + d - 1
  let doe := yoe * 365 + yoe / 4 - yoe / 100 + doy
  era * 146097 + doe - 719468

/-- Civil date `(y, m, d)` of a day number (inverse of `daysFromCivil`). -/
def civilFromDays (z : Int) : Int × Int × Int :=
  let z' := z + 719468
  let era := z' / 146097
  let doe := z' - era * 146097
  let yoe := (doe - doe / 1460 + doe / 36524 - doe / 146096) / 365
  let y := yoe + era * 400
  let doy := doe - (365 * yoe + yoe / 4 - yoe / 100)
  let mp := (5 * doy + 2) / 153
  let d := doy - (153 * mp + 2) / 5 + 1
  let m := if mp < 10 then mp + 3 else mp - 9
  (if m ≤ 2 then y + 1 else y, m, d)

/-- Split a character list at every `'-'`. -/
def splitOnDash : List Char → List (List Char)
  | [] => [[]]
  | c :: cs =>
      if c = '-' then [] :: splitOnDash cs
      else
        match splitOnDash cs with
        | [] => [[c]]
        | p :: ps => (c :: p) :: ps

/-- Parse a nonempty all-digit character list as a natural number. -/
def parseNat (cs : List Char) : Option Nat :=
  if cs ≠ [] && cs.all (fun c => '0' ≤ c && c ≤ '9') then
    some (cs.foldl (fun acc c => 10 * acc + (c.toNat - 48)) 0)
  else none

/-- `datetime.strptime(s, "%Y-%m-%d")`, returning the parsed date's day
number, or `none` where Python raises `ValueError`: the format must be a
4-digit year and 1- or 2-digit month and day separated by `-`, and the date
must be a valid calendar date with `1 ≤ year ≤ 9999` (`datetime.MINYEAR` /
`MAXYEAR`). -/
def strptime (s : String) : Option Int :=
  match splitOnDash s.data with
  | [ys, ms, ds] =>
      if ys.length = 4 && (ms.length = 1 || ms.length = 2)
          && (ds.length = 1 || ds.length = 2) then
        match parseNat ys, parseNat ms, parseNat ds with
        | some y, some m, some d =>
            if 1 ≤ y && y ≤ 9999 && 1 ≤ m && m ≤ 12 && 1 ≤ d
                && (d : Int) ≤ daysInMonth y m then
              some (daysFromCivil y m d)
            else none
        | _, _, _ => none
      else none
  | _ => none

/-- Decimal digit character for `n < 10`. -/
def digitChar : Nat → Char
  | 0 => '0'
  | 1 => '1'
  | 2 => '2'
  | 3 => '3'
  | 4 => '4'
  | 5 => '5'
  | 6 => '6'
  | 7 => '7'
  | 8 => '8'
  | _ => '9'

/-- Zero-padded 2-digit decimal rendering. -/
def pad2 (n : Nat) : List Char :=
  [digitChar (n / 10 % 10), digitChar (n % 10)]

/-- Zero-padded 4-digit decimal rendering. -/
def pad4 (n : Nat) : List Char :=
  [digitChar (n / 1000 % 10), digitChar (n / 100 % 10),
   digitChar (n / 10 % 10), digitChar (n % 10)]

/-- `date.strftime("%Y-%m-%d")` on the date with day number `z`. -/
def strftime (z : Int) : String :=
  let c := civilFromDays z
  ⟨pad4 c.1.toNat ++ '-' :: pad2 c.2.1.toNat ++ '-' :: pad2 c.2.2.toNat⟩

/-- The `while current <= end` loop of `parse_date_range`: append the
formatted current date and advance one day.  The loop is embedded
structurally with a fuel argument; `parse_date_range` supplies fuel equal to
the number of iterations the guard permits, so the guard and the fuel run
out together and the fuel never cuts the loop short. -/
def dateLoop : Nat → Int → Int → List String
  | 0, _, _ => []
  | fuel + 1, current, endDay =>
      if current ≤ endDay then
        strftime current :: dateLoop fuel (current + 1) endDay
      else []

/-- `parse_date_range(start_date, end_date)`: parse the start (raising
`ValueError` on bad input), then either run the inclusive day loop up to the
parsed end, or return the single start date when no end is given. -/
def parse_date_range (start_date : String) (end_date : Option String) :
    Except PyError (List String) :=
  match strptime start_date with
  | none => .error .valueError
  | some start =>
      match end_date with
      | none => .ok [strftime start]
      | some e =>
          match strptime e with
          | none => .error .valueError
          | some endDay => .ok (dateLoop (endDay + 1 - start).toNat start endDay)

/-- The range announcement of `main`
(`f"Syncing date range: {dates[0]} to {dates[-1]} ..."`): `dates[0]` and
`dates[-1]` raise `IndexError` on an empty list. -/
def announce_range (dates : List String) : Except PyError (String × String) :=
  match dates with
  | [] => .error .indexError
  | d :: rest => .ok (d, (d :: rest).getLast (List.cons_ne_nil d rest))

/-- The `--start-date` branch of `main`: plan the range, then announce it
(which indexes `dates[0]`/`dates[-1]`). -/
def main_range_step (start_date : String) (end_date : Option String) :
    Except PyError (String × String) :=
  match parse_date_range start_date end_date with
  | .error e => .error e
  | .ok dates => announce_range dates

/-- Fetch stub for the spec's three-date scenario: every fetch succeeds and
returns an empty activity list. -/
def scenarioGet : String → Except PyError OpenRouterResponse :=
  fun _ => .ok { error := none, data := [] }

/-- Transport stub for the spec's three-date scenario: PostHog replies with a
non-`"Ok"` status exactly for the event stamped on 2025-08-21, and with
`"Ok"` for every other day. -/
def scenarioPost : PosthogPayload → Except PyError PosthogResponse :=
  fun payload =>
    .ok { status :=
      if payload.timestamp = "2025-08-21T23:30:00Z" then some "ServerError"
      else some "Ok" }

/-- The three-date range of the spec's send-failure scenario. -/
def scenarioDates : List String := ["2025-08-20", "2025-08-21", "2025-08-22"]

/-!
Helper lemmas shared by the claim theorems.
-/

/-- The sorted model list is a permutation of the projected input records. -/
theorem sortModels_perm (l : List ModelBreakdown) :
    List.Perm (sortModels l) l :=
  List.perm_insertionSort byCostDesc l

/-- Inserting `x` into `l` under the descending-cost order touches the
cost-`c` entries of `l` only by putting `x` in front of them when `x` itself
has cost `c`: every element `x` walks past has cost strictly above `x`'s. -/
theorem filter_orderedInsert (c : ℚ) (x : ModelBreakdown)
    (l : List ModelBreakdown) :
    (List.orderedInsert byCostDesc x l).filter (fun m => decide (m.cost = c)) =
      if x.cost = c then
        x :: l.filter (fun m => decide (m.cost = c))
      else l.filter (fun m => decide (m.cost = c)) := by
  induction l with
  | nil =>
      by_cases h : x.cost = c <;>
        simp [List.orderedInsert, List.filter_cons, h]
  | cons y ys ih =>
      by_cases hr : byCostDesc x y
      · by_cases h : x.cost = c <;>
          simp [List.orderedInsert, hr, List.filter_cons, h]
      · have hlt : x.cost < y.cost := not_le.mp hr
        by_cases h : x.cost = c
        · have hy : y.cost ≠ c := ne_of_gt (h ▸ hlt)
          simp [List.orderedInsert, hr, List.filter_cons, h, hy, ih]
        · simp [List.orderedInsert, hr, List.filter_cons, h, ih]

/-- Stability of the model sort: the cost-`c` entries come out in exactly
their input order, for every cost `c`. -/
theorem filter_sortModels (c : ℚ) (l : List ModelBreakdown) :
    (sortModels l).filter (fun m => decide (m.cost = c)) =
      l.filter (fun m => decide (m.cost = c)) := by
  induction l with
  | nil => rfl
  | cons x xs ih =>
      show (List.orderedInsert byCostDesc x
          (List.insertionSort byCostDesc xs)).filter _ = _
      rw [filter_orderedInsert]
      by_cases h : x.cost = c <;>
        simp [List.filter_cons, h, ← ih, sortModels]

/-- Unrolling of the driver loop from an arbitrary accumulator: the counter
advances by the number of successful dates, and every date is attempted and
logged in order. -/
theorem run_sync_loop (get : String → Except PyError OpenRouterResponse)
    (post : PosthogPayload → Except PyError PosthogResponse) (key : String) :
    ∀ (dates : List String) (n : Nat) (log : List (String × Bool)),
      dates.foldl (sync_step get post key) (n, log) =
        (n + (dates.filter (fun d => exceptOk (sync_date get post key d))).length,
          log ++ dates.map (fun d => (d, exceptOk (sync_date get post key d)))) := by
  intro dates
  induction dates with
  | nil => intro n log; simp
  | cons d ds ih =>
      intro n log
      rw [List.foldl_cons]
      cases hd : sync_date get post key d with
      | ok u =>
          have hb : exceptOk (sync_date get post key d) = true := by
            rw [hd]; rfl
          simp [sync_step, hd, ih, hb, exceptOk, List.filter_cons,
            Nat.add_assoc, Nat.add_comm 1]
      | error e =>
          have hb : exceptOk (sync_date get post key d) = false := by
            rw [hd]; rfl
          simp [sync_step, hd, ih, hb, exceptOk, List.filter_cons]

/-- The date loop, run with fuel equal to the number of days the guard
permits, produces exactly the days `a, a+1, …, b` formatted. -/
theorem dateLoop_eq_range :
    ∀ (n : Nat) (a b : Int), (b + 1 - a).toNat = n →
      dateLoop n a b =
        (List.range n).map (fun i : Nat => strftime (a + (i : Int))) := by
  intro n
  induction n with
  | zero => intro a b _; rfl
  | succ n ih =>
      intro a b hn
      have hab : a ≤ b := by omega
      have h2 : (b + 1 - (a + 1)).toNat = n := by omega
      simp only [dateLoop, if_pos hab]
      rw [ih (a + 1) b h2, List.range_succ_eq_map]
      simp only [List.map_cons, List.map_map]
      congr 1
      · congr 1
        push_cast
        ring
      · apply List.map_congr_left
        intro i _
        simp only [Function.comp_apply]
        congr 1
        push_cast
        ring

/-- Normal form of the aggregator on a nonempty record list. -/
theorem transform_cons (r : ActivityRecord) (rs : List ActivityRecord)
    (date : String) :
    transform_activity_data (r :: rs) date =
      { date := date
        total_cost := ((r :: rs).map (fun item => item.usage)).sum
        total_requests := ((r :: rs).map (fun item => item.requests)).sum
        total_prompt_tokens :=
          ((r :: rs).map (fun item => item.prompt_tokens)).sum
        total_completion_tokens :=
          ((r :: rs).map (fun item => item.completion_tokens)).sum
        total_reasoning_tokens :=
          ((r :: rs).map (fun item => item.reasoning_tokens.getD 0)).sum
        model_count := (sortModels ((r :: rs).map projectRecord)).length
        models := sortModels ((r :: rs).map projectRecord) } := rfl

/-- Sorting the models does not change the sum of any projected field. -/
theorem sum_map_sortModels {β : Type} [AddCommMonoid β]
    (f : ModelBreakdown → β) (l : List ModelBreakdown) :
    ((sortModels l).map f).sum = (l.map f).sum :=
  ((sortModels_perm l).map f).sum_eq

/-- C1: for every input record list, the aggregator's `DailySummary`
satisfies `model_count = length models`, and each of the five totals equals
the sum of the corresponding field over the entries of `models`. -/
theorem C1_daily_summary_totals (raw_data : List ActivityRecord)
    (date : String) :
    (transform_activity_data raw_data date).model_count =
        (transform_activity_data raw_data date).models.length ∧
      (transform_activity_data raw_data date).total_cost =
        ((transform_activity_data raw_data date).models.map
          (fun m => m.cost)).sum ∧
      (transform_activity_data raw_data date).total_requests =
        ((transform_activity_data raw_data date).models.map
          (fun m => m.requests)).sum ∧
      (transform_activity_data raw_data date).total_prompt_tokens =
        ((transform_activity_data raw_data date).models.map
          (fun m => m.prompt_tokens)).sum ∧
      (transform_activity_data raw_data date).total_completion_tokens =
        ((transform_activity_data raw_data date).models.map
          (fun m => m.completion_tokens)).sum ∧
      (transform_activity_data raw_data date).total_reasoning_tokens =
        ((transform_activity_data raw_data date).models.map
          (fun m => m.reasoning_tokens)).sum := by
  cases raw_data with
  | nil => exact ⟨rfl, rfl, rfl, rfl, rfl, rfl⟩
  | cons r rs =>
      rw [transform_cons]
      refine ⟨rfl, ?_, ?_, ?_, ?_, ?_⟩ <;>
        · rw [sum_map_sortModels, List.map_map]
          rfl

/-- C2: the aggregator's `models` list is sorted by cost descending, and the
sort is stable: for every cost value, the entries carrying that cost appear
in exactly the order of the input records they were projected from. -/
theorem C2_models_sorted_stable (raw_data : List ActivityRecord)
    (date : String) :
    List.Pairwise (fun a b => b.cost ≤ a.cost)
        (transform_activity_data raw_data date).models ∧
      ∀ c : ℚ,
        (transform_activity_data raw_data date).models.filter
            (fun m => decide (m.cost = c)) =
          (raw_data.map projectRecord).filter
            (fun m => decide (m.cost = c)) := by
  cases raw_data with
  | nil => exact ⟨List.Pairwise.nil, fun _ => rfl⟩
  | cons r rs =>
      rw [transform_cons]
      exact ⟨List.sorted_insertionSort byCostDesc _,
        fun c => filter_sortModels c _⟩

/-- C6: the empty record list yields the zero-valued `DailySummary` with an
empty model list. -/
theorem C6_empty_input_zero_summary (date : String) :
    transform_activity_data [] date =
      { date := date
        total_cost := 0
        total_requests := 0
        total_prompt_tokens := 0
        total_completion_tokens := 0
        total_reasoning_tokens := 0
        model_count := 0
        models := [] } := rfl

/-- C7: the PostHog event envelope carries the timestamp
`<date>T23:30:00Z` (the payload is a pure function of its arguments, so it
cannot depend on the send time), the fixed event name
`openrouter_daily_activity`, and the `DailySummary` as its property bag; in
particular date `2025-08-25` stamps `2025-08-25T23:30:00Z`. -/
theorem C7_posthog_payload_fields (api_key : String)
    (event_data : DailySummary) (date : String) :
    (posthogPayload api_key event_data date).timestamp =
        date ++ "T23:30:00Z" ∧
      (posthogPayload api_key event_data date).event =
        "openrouter_daily_activity" ∧
      (posthogPayload api_key event_data date).properties = event_data ∧
      (posthogPayload api_key event_data "2025-08-25").timestamp =
        "2025-08-25T23:30:00Z" :=
  ⟨rfl, rfl, rfl, rfl⟩

/-- C9: the breakdown's `name` is the record's `model_permaslug` when
present, else its `model` when present, else the empty string. -/
theorem C9_model_name_fallback (r : ActivityRecord) :
    (∀ s, r.model_permaslug = some s → (projectRecord r).name = s) ∧
      (r.model_permaslug = none →
        ∀ t, r.model = some t → (projectRecord r).name = t) ∧
      (r.model_permaslug = none → r.model = none →
        (projectRecord r).name = "") := by
  refine ⟨?_, ?_, ?_⟩
  · intro s hs
    simp [projectRecord, hs]
  · intro hp t ht
    simp [projectRecord, hp, ht]
  · intro hp hm
    simp [projectRecord, hp, hm]

/-- Concrete instances of the three branches of `C9_model_name_fallback`. -/
theorem C9_model_name_fallback_witness :
    (projectRecord
        { model_permaslug := some "org/model-a", model := some "model-a",
          usage := 1, requests := 1, prompt_tokens := 1,
          completion_tokens := 1, reasoning_tokens := none,
          byok_usage_inference := none, provider_name := "acme" }).name =
        "org/model-a" ∧
      (projectRecord
        { model_permaslug := none, model := some "model-b",
          usage := 1, requests := 1, prompt_tokens := 1,
          completion_tokens := 1, reasoning_tokens := none,
          byok_usage_inference := none, provider_name := "acme" }).name =
        "model-b" ∧
      (projectRecord
        { model_permaslug := none, model := none,
          usage := 1, requests := 1, prompt_tokens := 1,
          completion_tokens := 1, reasoning_tokens := none,
          byok_usage_inference := none, provider_name := "acme" }).name =
        "" :=
  ⟨(C9_model_name_fallback _).1 _ rfl,
    (C9_model_name_fallback _).2.1 rfl _ rfl,
    (C9_model_name_fallback _).2.2 rfl rfl⟩

/-- C10: the aggregator's `models` list is a permutation of the per-record
projections of the input — one entry per input record, fields unchanged and
never merged — so its length is the number of input records. -/
theorem C10_models_permutation (raw_data : List ActivityRecord)
    (date : String) :
    List.Perm (transform_activity_data raw_data date).models
        (raw_data.map projectRecord) ∧
      (transform_activity_data raw_data date).models.length =
        raw_data.length := by
  cases raw_data with
  | nil => exact ⟨List.Perm.nil, rfl⟩
  | cons r rs =>
      rw [transform_cons]
      exact ⟨sortModels_perm _,
        ((sortModels_perm _).length_eq).trans (List.length_map _ _)⟩

/-- C4: the driver catches any per-date failure, attempts every planned date
regardless, and counts exactly the dates whose fetch-aggregate-send cycle
succeeded; in particular a non-`"Ok"` send status on the middle date of a
three-date range yields 2 successes out of 3 with all three dates
attempted. -/
theorem C4_driver_isolates_failures :
    (∀ (get : String → Except PyError OpenRouterResponse)
        (post : PosthogPayload → Except PyError PosthogResponse)
        (key : String) (dates : List String),
        (run_sync get post key dates).1 =
            (dates.filter
              (fun d => exceptOk (sync_date get post key d))).length ∧
          (run_sync get post key dates).2.map Prod.fst = dates) ∧
      (run_sync scenarioGet scenarioPost "phk" scenarioDates).1 = 2 ∧
      (run_sync scenarioGet scenarioPost "phk" scenarioDates).2 =
        [("2025-08-20", true), ("2025-08-21", false), ("2025-08-22", true)] := by
  refine ⟨fun get post key dates => ?_, ?_, ?_⟩
  · rw [run_sync, run_sync_loop]
    constructor
    · simp
    · show List.map Prod.fst
        ([] ++ List.map (fun d => (d, exceptOk (sync_date get post key d)))
          dates) = dates
      rw [List.nil_append, List.map_map]
      have hfst : (Prod.fst ∘ fun d : String =>
          (d, exceptOk (sync_date get post key d))) = fun d => d := rfl
      rw [hfst]
      simp
  · rfl
  · rfl

/-- C5: for parsed start and end days `a ≤ b`, the planner returns the
inclusive ascending sequence of every calendar day from `a` to `b`,
formatted. -/
theorem C5_date_range_inclusive (s e : String) (a b : Int)
    (hs : strptime s = some a) (he : strptime e = some b) (_hab : a ≤ b) :
    parse_date_range s (some e) =
      .ok ((List.range (b + 1 - a).toNat).map
        (fun i : Nat => strftime (a + (i : Int)))) := by
  simp only [parse_date_range, hs, he]
  rw [dateLoop_eq_range ((b + 1 - a).toNat) a b rfl]

/-- Instance of `C5_date_range_inclusive` at the spec's example: the range
2025-08-20 .. 2025-08-22 is exactly the three listed dates. -/
theorem C5_date_range_witness :
    parse_date_range "2025-08-20" (some "2025-08-22") =
      .ok ["2025-08-20", "2025-08-21", "2025-08-22"] := by
  rw [C5_date_range_inclusive "2025-08-20" "2025-08-22" 20320 20322
    (by decide) (by decide) (by decide)]
  rfl

/-- C8: a start date with no end date plans exactly the single-element
sequence holding that start date. -/
theorem C8_start_only_single_date (s : String) (a : Int)
    (hs : strptime s = some a) :
    parse_date_range s none = .ok [strftime a] := by
  simp only [parse_date_range, hs]

/-- Instance of `C8_start_only_single_date`: start 2025-08-20 alone plans
only 2025-08-20 itself, not a range extending to today. -/
theorem C8_start_only_witness :
    parse_date_range "2025-08-20" none = .ok ["2025-08-20"] := by
  rw [C8_start_only_single_date "2025-08-20" 20320 (by decide)]
  rfl

/-- C3 fails on the code: with the end date before the start date the
planner raises nothing at all — it returns `ok` with the empty range
(`2025-08-22 .. 2025-08-20` here), rather than failing with a configuration
error. -/
theorem C3_counterexample_no_config_error :
    parse_date_range "2025-08-22" (some "2025-08-20") = .ok [] := rfl

/-- C3 amended: when the end date precedes the start date the planner
silently returns the empty range, and the driver's range announcement
(`dates[0]`) then fails with an `IndexError` — the run aborts before any
date is processed, but through an unhandled `IndexError`, not a surfaced
`ConfigError`. -/
theorem C3_amended_empty_range_index_error (s e : String) (a b : Int)
    (hs : strptime s = some a) (he : strptime e = some b) (hba : b < a) :
    parse_date_range s (some e) = .ok [] ∧
      main_range_step s (some e) = .error .indexError := by
  have h0 : (b + 1 - a).toNat = 0 := by omega
  have hp : parse_date_range s (some e) = .ok [] := by
    simp only [parse_date_range, hs, he, h0]
    rfl
  refine ⟨hp, ?_⟩
  simp only [main_range_step, hp]
  rfl

/-- Instance of `C3_amended_empty_range_index_error` at the spec's example
inputs. -/
theorem C3_amended_witness :
    parse_date_range "2025-08-22" (some "2025-08-20") = .ok [] ∧
      main_range_step "2025-08-22" (some "2025-08-20") =
        .error .indexError :=
  C3_amended_empty_range_index_error "2025-08-22" "2025-08-20" 20322 20320
    (by decide) (by decide) (by decide)
